import Mathlib

/-!
Verification development for the FreeCluely resilient connection core:
a shallow embedding of `python-backend/ai/connection_manager.py`
(`AIConnectionManager`) and `python-backend/ai/tag_websocket_manager.py`
(`TagWebSocketManager`), with theorems settling the spec claims about
streaming callback ordering, reconnection policy, disconnect behaviour
and the tag mirror.

Modelling conventions:
- each manager's mutable `self` becomes a state record; callback dispatch
  becomes an appended event trace (the model assumes all callbacks are
  registered; a `None` callback merely skips dispatch in the source);
- network outcomes (HTTP fetch result, validation-request result, socket
  connect success) are explicit environment parameters;
- wall-clock timestamps and generated uuids are omitted from the message
  records (they influence no claim);
- the cooperative `_generation_stopped` flag is modelled by a countdown
  schedule: `some k` means `stop_generation` ran just before the k-th
  chunk iteration of the receive loop, `none` means it never ran.
-/

namespace FreeCluely

/-! ### Tag data model (`models/context_data.py` and `tag_websocket_manager.py`) -/

/-- `Tag` dataclass from `models/context_data.py`. -/
structure Tag where
  id : String
  name : String
  color : String
deriving DecidableEq, Repr

/-- `TagData` dataclass: tag payload inside WebSocket `tag_update` frames;
`name` and `color` are optional. -/
structure TagDataMsg where
  uniqueid : String
  name : Option String := none
  color : Option String := none
deriving DecidableEq, Repr

/-- `TagData.to_tag`: returns `None` when `name` or `color` is missing or
empty (Python truthiness: `if not self.name or not self.color`). -/
def TagDataMsg.toTag (d : TagDataMsg) : Option Tag :=
  match d.name, d.color with
  | some n, some c =>
      if n = "" ∨ c = "" then none
      else some { id := d.uniqueid, name := n, color := c }
  | _, _ => none

/-- `TagUpdate` dataclass: the tagged envelope received on the socket. -/
structure TagUpdateMsg where
  type : String
  action : Option String := none
  data : Option TagDataMsg := none
  status : Option String := none
deriving DecidableEq, Repr

/-- Callback firings of `TagWebSocketManager`, in dispatch order. -/
inductive TagEvent where
  | tagCreated (t : Tag)
  | tagUpdated (t : Tag)
  | tagDeleted (id : String)
  | connectionChanged (b : Bool)
  | tagsLoaded (ts : List Tag)
  | errorOccurred (msg : String)
deriving DecidableEq, Repr

/-- Mutable state of `TagWebSocketManager` (tasks and handles as flags). -/
structure TagState where
  is_connected : Bool
  is_loading : Bool
  error : Option String
  websocket_open : Bool
  http_session : Bool
  tenant_name : String
  tags : List Tag
  last_tag_update : Option TagUpdateMsg
  should_maintain_connection : Bool
  reconnection_attempts : Nat
  max_reconnection_attempts : Nat
  reconnection_delay : ℚ
  ping_task : Bool
  receive_task : Bool
  monitor_task : Bool
  events : List TagEvent
deriving DecidableEq, Repr

/-- `_add_or_update_tag`: replace the first entry with a matching id, or
append at the end when no entry matches. -/
def addOrUpdateTag (tags : List Tag) (tag : Tag) : List Tag :=
  match tags with
  | [] => [tag]
  | t :: rest => if t.id = tag.id then tag :: rest else t :: addOrUpdateTag rest tag

/-- `_remove_tag`: remove the first entry with a matching id (no-op when
absent). -/
def removeTag (tags : List Tag) (uniqueid : String) : List Tag :=
  match tags with
  | [] => []
  | t :: rest => if t.id = uniqueid then rest else t :: removeTag rest uniqueid

/-- `get_tag`: linear scan of the mirror for the first entry with a
matching id. -/
def getTag (tags : List Tag) (uniqueid : String) : Option Tag :=
  match tags with
  | [] => none
  | t :: rest => if t.id = uniqueid then some t else getTag rest uniqueid

/-- `_handle_tag_update`: dispatch one parsed envelope. `connection`,
`ping` and unknown types are ignored; `tag_update` frames with a falsy
action or missing data are dropped; `created`/`updated` upsert only when
`to_tag` succeeds; `deleted` removes by id unconditionally. -/
def handleTagUpdate (s : TagState) (u : TagUpdateMsg) : TagState :=
  let s := { s with last_tag_update := some u }
  if u.type = "connection" then s
  else if u.type = "tag_update" then
    match u.action, u.data with
    | some act, some d =>
      if act = "" then s
      else if act = "created" then
        match d.toTag with
        | some t =>
            { s with tags := addOrUpdateTag s.tags t
                     events := s.events ++ [TagEvent.tagCreated t] }
        | none => s
      else if act = "updated" then
        match d.toTag with
        | some t =>
            { s with tags := addOrUpdateTag s.tags t
                     events := s.events ++ [TagEvent.tagUpdated t] }
        | none => s
      else if act = "deleted" then
        { s with tags := removeTag s.tags d.uniqueid
                 events := s.events ++ [TagEvent.tagDeleted d.uniqueid] }
      else s
    | _, _ => s
  else s

/-! ### Tag fetch, connect, disconnect, reconnection -/

/-- A row of the `get_all_tags_for_user` response (`TagAPIData`): all
three fields are required there. -/
structure TagAPIRow where
  uniqueid : String
  name : String
  color : String
deriving DecidableEq, Repr

/-- `TagAPIData.to_tag` (total: all fields present). -/
def TagAPIRow.toTag (r : TagAPIRow) : Tag :=
  { id := r.uniqueid, name := r.name, color := r.color }

/-- Outcome of the full-fetch HTTP call. -/
inductive FetchOutcome where
  | ok (rows : List TagAPIRow)
  | httpError (status : Nat)
  | exn (msg : String)
deriving DecidableEq, Repr

/-- `fetch_all_tags`: every failure path is handled internally (the
function never raises); errors surface only through `on_error_occurred`. -/
def fetchAllTags (env : FetchOutcome) (s : TagState) : TagState :=
  let s := { s with is_loading := true, error := none }
  if s.tenant_name = "" then
    { s with error := some "Tenant name not set", is_loading := false
             events := s.events ++ [TagEvent.errorOccurred "Tenant name not set"] }
  else
    let s := { s with http_session := true }
    match env with
    | FetchOutcome.ok rows =>
        let tags := rows.map TagAPIRow.toTag
        { s with tags := tags, is_loading := false
                 events := s.events ++ [TagEvent.tagsLoaded tags] }
    | FetchOutcome.httpError status =>
        let msg := "HTTP " ++ toString status
        { s with error := some msg, is_loading := false
                 events := s.events ++ [TagEvent.errorOccurred msg] }
    | FetchOutcome.exn m =>
        { s with error := some m, is_loading := false
                 events := s.events ++ [TagEvent.errorOccurred m] }

/-- `TagWebSocketManager.connect` (one attempt; the recursive
`_handle_connection_error` chain triggered on failure is modelled
separately by `tagHandleConnectionError`). Early-returns when a socket is
already open or shutdown was requested; on success starts the three
background loops and resets the reconnection counter and delay. -/
def tagConnect (sockOk : Bool) (tenant : String) (s : TagState) : TagState :=
  if s.websocket_open ∨ ¬ s.should_maintain_connection then s
  else
    let s := { s with tenant_name := tenant }
    if sockOk then
      { s with websocket_open := true, is_connected := true
               reconnection_attempts := 0, reconnection_delay := 1
               ping_task := true, receive_task := true, monitor_task := true
               events := s.events ++ [TagEvent.connectionChanged true] }
    else
      { s with is_connected := false }

/-- `TagWebSocketManager.initialize`: set tenant, create the HTTP session,
run the full fetch, then connect the socket.  `fetch_all_tags` never
raises, so the surrounding `try` never prevents the `connect` call. -/
def tagSessionInit (fetchEnv : FetchOutcome) (sockOk : Bool) (tenant : String)
    (s : TagState) : TagState :=
  let s := { s with tenant_name := tenant, http_session := true }
  tagConnect sockOk tenant (fetchAllTags fetchEnv s)

/-- `TagWebSocketManager.disconnect`. -/
def tagDisconnect (s : TagState) : TagState :=
  { s with should_maintain_connection := false
           ping_task := false, receive_task := false, monitor_task := false
           websocket_open := false, http_session := false
           is_connected := false
           events := s.events ++ [TagEvent.connectionChanged false] }

/-- `_handle_connection_error`: one invocation. Returns the backoff delay
of the attempt it performs, or `none` when it performs no attempt (shutdown
requested, or the attempt ceiling was reached — in which case the counter
is reset to zero). -/
def tagHandleConnectionError (s : TagState) : TagState × Option ℚ :=
  let s := { s with is_connected := false
                    events := s.events ++ [TagEvent.connectionChanged false] }
  if ¬ s.should_maintain_connection then (s, none)
  else if s.reconnection_attempts < s.max_reconnection_attempts then
    let a := s.reconnection_attempts + 1
    let d := min (s.reconnection_delay * 2 ^ (a - 1)) 30
    ({ s with reconnection_attempts := a }, some d)
  else
    ({ s with reconnection_attempts := 0 }, none)

/-- Canonical post-connect tag session state from which a failure chain
starts (counter fresh, shutdown not requested; constants as in source). -/
def tagReconnStart : TagState :=
  { is_connected := true, is_loading := false, error := none
    websocket_open := true, http_session := true, tenant_name := "tenant"
    tags := [], last_tag_update := none
    should_maintain_connection := true
    reconnection_attempts := 0, max_reconnection_attempts := 10
    reconnection_delay := 1
    ping_task := true, receive_task := true, monitor_task := true
    events := [] }

/-- Run of `n` consecutive connection-error events against the tag session
in which every reconnect attempt fails (each failed `connect` re-enters
`_handle_connection_error`, and after the chain stops the 10-second
monitor loop re-triggers it).  Second component counts the reconnection
attempts actually performed. -/
def tagFailChain : Nat → TagState × Nat
  | 0 => (tagReconnStart, 0)
  | n + 1 =>
      let p := tagFailChain n
      let r := tagHandleConnectionError p.1
      (r.1, p.2 + if r.2.isSome then 1 else 0)

/-! ### Chat session (`AIConnectionManager`) -/

/-- One chunk of the provider's streamed completion: `delta.content` and
`finish_reason`, both nullable. -/
structure Chunk where
  content : Option String
  finish : Option String
deriving DecidableEq, Repr

/-- Callback firings of `AIConnectionManager`, in dispatch order. -/
inductive ChatEvent where
  | chunkReceived (s : String)
  | messageReceived (s : String)
  | thinkingChanged (b : Bool)
  | responseComplete (s : String)
  | connectionChanged (b : Bool)
deriving DecidableEq, Repr

/-- `AIMessage` (role and content; wall-clock timestamp and optional
metadata omitted — no claim depends on them). -/
structure AIMessage where
  role : String
  content : String
deriving DecidableEq, Repr

/-- `MessageData` (UI history entry; generated uuid and timestamp
omitted). -/
structure MessageData where
  message : String
  is_user : Bool
deriving DecidableEq, Repr

/-- Mutable state of `AIConnectionManager` (tasks and handles as flags). -/
structure ChatState where
  is_connected : Bool
  is_receiving : Bool
  should_maintain_connection : Bool
  openai_available : Bool
  api_key_present : Bool
  has_client : Bool
  message_stream : String
  message_history : List AIMessage
  last_messages : List MessageData
  current_response_content : String
  response_event_set : Bool
  reconnection_attempts : Nat
  max_reconnection_attempts : Nat
  reconnection_delay : ℚ
  health_task : Bool
  events : List ChatEvent
deriving DecidableEq, Repr

/-- Outcome of the minimal-token `_test_api_connection` validation call. -/
inductive ValidationResult where
  | ok
  | fail (msg : String)
deriving DecidableEq, Repr

/-- `AIConnectionManager.connect`: missing library or missing API key make
it return normally (connected stays false, `on_connection_changed(False)`
fires); only a failed validation request raises, after the client handle
was created.  On success the reconnection counter resets and the health
check loop starts when "maintain connection" is set. -/
def chatConnect (v : ValidationResult) (s : ChatState) :
    ChatState × Except String Unit :=
  if ¬ s.openai_available then
    ({ s with is_connected := false
              events := s.events ++ [ChatEvent.connectionChanged false] },
     Except.ok ())
  else if ¬ s.api_key_present then
    ({ s with is_connected := false
              events := s.events ++ [ChatEvent.connectionChanged false] },
     Except.ok ())
  else
    let s := { s with has_client := true }
    match v with
    | ValidationResult.ok =>
        ({ s with is_connected := true, reconnection_attempts := 0
                  health_task := s.should_maintain_connection || s.health_task
                  events := s.events ++ [ChatEvent.connectionChanged true] },
         Except.ok ())
    | ValidationResult.fail m =>
        ({ s with is_connected := false
                  events := s.events ++ [ChatEvent.connectionChanged false] },
         Except.error m)

/-- `AIConnectionManager.disconnect`. -/
def chatDisconnect (s : ChatState) : ChatState :=
  { s with should_maintain_connection := false, is_connected := false
           health_task := false, has_client := false
           events := s.events ++ [ChatEvent.connectionChanged false] }

/-- `_create_enhanced_prompt`: base text plus conditionally appended
labelled sections (Python truthiness: empty strings are skipped). -/
def createEnhancedPrompt (text : String) (ocrText selectedText browserUrl : Option String)
    (smarterAnalysis : Bool) : String :=
  let p := text
  let p := match ocrText with
    | some o => if o = "" then p else p ++ "\n\nScreen OCR Text: " ++ o
    | none => p
  let p := match selectedText with
    | some t => if t = "" then p else p ++ "\n\nSelected Text: " ++ t
    | none => p
  let p := match browserUrl with
    | some u => if u = "" then p else p ++ "\n\nBrowser URL: " ++ u
    | none => p
  if smarterAnalysis then
    p ++ "\n\nPlease provide a detailed and comprehensive analysis."
  else p

/-- The cooperative stop flag at the current loop iteration (`some 0`
means `_generation_stopped` is now true). -/
def stopFlag : Option Nat → Bool
  | some 0 => true
  | _ => false

/-- Advance the stop schedule by one loop iteration (once the flag is
true it stays true). -/
def tickStop : Option Nat → Option Nat
  | some (n + 1) => some n
  | o => o

/-- The receive loop of `_stream_openai_response_realtime`: per chunk,
first the cooperative stop check (break without setting the completion
event), then the non-null `delta.content` handling (append to the stream
buffer, fire `on_chunk_received` then the legacy `on_message_received`),
then the non-null `finish_reason` handling (fire `on_thinking_changed
(False)`, append the assistant message to history, fire
`on_response_complete` and the final `on_message_received`, set the
completion event, break). -/
def runStream (s : ChatState) (chunks : List Chunk) (stopAt : Option Nat) : ChatState :=
  match chunks with
  | [] => s
  | c :: rest =>
      if stopFlag stopAt then s
      else
        let s1 := match c.content with
          | some content =>
              { s with message_stream := s.message_stream ++ content
                       current_response_content := s.current_response_content ++ content
                       events := s.events ++
                         [ChatEvent.chunkReceived content,
                          ChatEvent.messageReceived (s.message_stream ++ content)] }
          | none => s
        match c.finish with
        | some _ =>
            { s1 with is_receiving := false
                      message_history := s1.message_history ++
                        [{ role := "assistant", content := s1.message_stream }]
                      response_event_set := true
                      events := s1.events ++
                        [ChatEvent.thinkingChanged false,
                         ChatEvent.responseComplete s1.message_stream,
                         ChatEvent.messageReceived s1.message_stream] }
        | none => runStream s1 rest (tickStop stopAt)

/-- `send_message_streaming`.  `connectEnv` is the validation outcome used
if an implicit `connect()` is needed; `chunks` is the provider's streamed
sequence; `stopAt` the stop-flag schedule.  The returned value models
`await self._current_response_event.wait(); return ...`: `some content`
when the completion event was set, `none` when the event is never set and
the caller stays suspended forever. -/
def sendMessageStreaming (connectEnv : ValidationResult) (s0 : ChatState)
    (text : String) (ocrText selectedText browserUrl : Option String)
    (smarterAnalysis : Bool) (chunks : List Chunk) (stopAt : Option Nat) :
    ChatState × Except String (Option String) :=
  let ensured : ChatState × Option String :=
    if s0.is_connected then (s0, none)
    else if s0.should_maintain_connection then
      match chatConnect connectEnv s0 with
      | (s1, Except.error m) => (s1, some m)
      | (s1, Except.ok _) =>
          if s1.is_connected then (s1, none)
          else (s1, some "Not connected to OpenAI API")
    else (s0, some "Not connected to OpenAI API")
  match ensured with
  | (s1, some m) => (s1, Except.error m)
  | (s1, none) =>
      let s2 := { s1 with events := s1.events ++ [ChatEvent.thinkingChanged true] }
      let prevAssistant : MessageData := { message := s2.message_stream, is_user := false }
      let s3 :=
        if s2.message_stream = "" then s2
        else { s2 with last_messages := s2.last_messages ++ [prevAssistant] }
      let userEntry : MessageData := { message := text, is_user := true }
      let s4 := { s3 with last_messages := s3.last_messages ++ [userEntry], message_stream := "" }
      let prompt := createEnhancedPrompt text ocrText selectedText browserUrl smarterAnalysis
      let userMsg : AIMessage := { role := "user", content := prompt }
      let s5 := { s4 with message_history := s4.message_history ++ [userMsg] }
      let s6 := { s5 with is_receiving := true
                          response_event_set := false
                          current_response_content := "" }
      let s7 := runStream s6 chunks stopAt
      (s7, Except.ok (if s7.response_event_set then some s7.current_response_content else none))

/-- `_attempt_reconnection`: at the ceiling it gives up (connected := false,
`on_connection_changed(False)`, counter untouched); otherwise it increments
the counter and waits `min(delay * 2 ** attempts, 60)` seconds before the
`connect()` call.  Second component is the computed backoff delay (none
when no attempt is performed). -/
def chatAttemptReconnection (s : ChatState) : ChatState × Option ℚ :=
  if s.max_reconnection_attempts ≤ s.reconnection_attempts then
    ({ s with is_connected := false
              events := s.events ++ [ChatEvent.connectionChanged false] },
     none)
  else
    let a := s.reconnection_attempts + 1
    let w := min (s.reconnection_delay * 2 ^ a) 60
    ({ s with reconnection_attempts := a }, some w)

/-- One failed reconnection attempt: `_attempt_reconnection` followed by a
`connect()` whose validation request fails (the raised error is caught and
logged inside `_attempt_reconnection`). -/
def chatFailStep (s : ChatState) : ChatState × Option ℚ :=
  let r := chatAttemptReconnection s
  match r.2 with
  | none => r
  | some w => ((chatConnect (ValidationResult.fail "err") r.1).1, some w)

/-- Canonical connected chat state from which a failure chain starts
(counter fresh; constants as in source). -/
def chatReconnStart : ChatState :=
  { is_connected := true, is_receiving := false
    should_maintain_connection := true
    openai_available := true, api_key_present := true, has_client := true
    message_stream := "", message_history := [], last_messages := []
    current_response_content := "", response_event_set := false
    reconnection_attempts := 0, max_reconnection_attempts := 10
    reconnection_delay := 1, health_task := true, events := [] }

/-- Run of `n` consecutive health-check-failure reconnection rounds in
which every `connect()` fails; second component lists the backoff delays
of the attempts actually performed, in order. -/
def chatFailChain : Nat → ChatState × List ℚ
  | 0 => (chatReconnStart, [])
  | n + 1 =>
      let p := chatFailChain n
      let r := chatFailStep p.1
      (r.1, p.2 ++ r.2.toList)

/-! ### Abstract tag frames and the reference mirror model (for C6) -/

/-- A `tag_update` frame of one of the three recognized actions. -/
inductive TagFrame where
  | created (t : Tag)
  | updated (t : Tag)
  | deleted (id : String)
deriving DecidableEq, Repr

/-- The wire envelope such a frame arrives as. -/
def TagFrame.toMsg : TagFrame → TagUpdateMsg
  | TagFrame.created t =>
      { type := "tag_update", action := some "created",
        data := some { uniqueid := t.id, name := some t.name, color := some t.color } }
  | TagFrame.updated t =>
      { type := "tag_update", action := some "updated",
        data := some { uniqueid := t.id, name := some t.name, color := some t.color } }
  | TagFrame.deleted i =>
      { type := "tag_update", action := some "deleted",
        data := some { uniqueid := i } }

/-- Well-formed frame: upserts carry a non-empty name and color (the
payload shape `TagData.to_tag` accepts). -/
def TagFrame.wf : TagFrame → Bool
  | TagFrame.created t => (!(t.name == "")) && (!(t.color == ""))
  | TagFrame.updated t => (!(t.name == "")) && (!(t.color == ""))
  | TagFrame.deleted _ => true

/-- Feed a sequence of frames through `_handle_tag_update`. -/
def applyFrames (s : TagState) (fs : List TagFrame) : TagState :=
  fs.foldl (fun st f => handleTagUpdate st f.toMsg) s

/-- The mirror operation a well-formed frame performs. -/
def applyOp (l : List Tag) : TagFrame → List Tag
  | TagFrame.created t => addOrUpdateTag l t
  | TagFrame.updated t => addOrUpdateTag l t
  | TagFrame.deleted i => removeTag l i

/-- Reference model of one frame's effect on the entry for id `i`:
last-writer-wins per id. -/
def refStep (i : String) (acc : Option Tag) : TagFrame → Option Tag
  | TagFrame.created t => if t.id = i then some t else acc
  | TagFrame.updated t => if t.id = i then some t else acc
  | TagFrame.deleted j => if j = i then none else acc

/-- Reference model: the entry the mirror should hold for id `i` after a
frame sequence, starting from `init`. -/
def refLookup (init : Option Tag) (fs : List TagFrame) (i : String) : Option Tag :=
  fs.foldl (refStep i) init

/-- No two mirror entries share an id. -/
def idsNodup (l : List Tag) : Prop := (l.map Tag.id).Nodup

/-! ### Event classifiers and token helpers (for C1/C10) -/

/-- Keep only the two streaming callbacks claim P1 is about. -/
def isStreamCb : ChatEvent → Bool
  | ChatEvent.chunkReceived _ => true
  | ChatEvent.responseComplete _ => true
  | _ => false

/-- Keep only `on_response_complete` firings. -/
def isCompleteCb : ChatEvent → Bool
  | ChatEvent.responseComplete _ => true
  | _ => false

/-- Concatenation of streamed tokens. -/
def concatTokens : List String → String
  | [] => ""
  | t :: ts => t ++ concatTokens ts

/-- A provider stream of `N` non-null content tokens followed by one chunk
whose `finish_reason` is non-null. -/
def tokensToChunks (tokens : List String) (reason : String) : List Chunk :=
  tokens.map (fun t => { content := some t, finish := none }) ++
    [{ content := none, finish := some reason }]

/-- The callback trace the token-handling part of the receive loop emits,
given the stream buffer's prior contents. -/
def streamTrace (pre : String) : List String → List ChatEvent
  | [] => []
  | t :: ts =>
      ChatEvent.chunkReceived t :: ChatEvent.messageReceived (pre ++ t) ::
        streamTrace (pre ++ t) ts

/-! ### Concrete states used by counterexamples and witnesses -/

/-- Freshly constructed `TagWebSocketManager` state (`__init__`). -/
def tagInitState : TagState :=
  { is_connected := false, is_loading := false, error := none
    websocket_open := false, http_session := false, tenant_name := ""
    tags := [], last_tag_update := none
    should_maintain_connection := true
    reconnection_attempts := 0, max_reconnection_attempts := 10
    reconnection_delay := 1
    ping_task := false, receive_task := false, monitor_task := false
    events := [] }

/-- Connected chat session three failed reconnection attempts into a
health-check outage. -/
def chatStateAttempts3 : ChatState :=
  { chatReconnStart with reconnection_attempts := 3 }

/-- Chat manager constructed without the `openai` library available. -/
def chatNoLibState : ChatState :=
  { chatReconnStart with is_connected := false, openai_available := false
                         has_client := false, health_task := false }

/-- Tag session holding one tag, as after Scenario B's initial fetch. -/
def tagStateOneTag : TagState :=
  { tagInitState with tenant_name := "tenant"
                      tags := [{ id := "1", name := "urgent", color := "red" }] }

/-- A `deleted` frame whose payload carries only the id. -/
def deleteOnlyIdMsg : TagUpdateMsg :=
  { type := "tag_update", action := some "deleted",
    data := some { uniqueid := "1" } }

/-- A concrete interleaving of create/update/delete frames. -/
def sampleFrames : List TagFrame :=
  [TagFrame.created { id := "1", name := "urgent", color := "red" },
   TagFrame.updated { id := "1", name := "urgent", color := "blue" },
   TagFrame.created { id := "2", name := "backlog", color := "green" },
   TagFrame.deleted "1"]

/-! ## Theorems -/

/-! ### C3 — double disconnect -/

/-- C3: counterexample. On a connected chat session with an empty trace,
calling `disconnect()` twice fires `on_connection_changed(False)` twice,
not exactly once as the claim states. -/
theorem c3_double_disconnect_cex :
    (chatDisconnect (chatDisconnect chatReconnStart)).events
        = [ChatEvent.connectionChanged false, ChatEvent.connectionChanged false] ∧
    (chatDisconnect (chatDisconnect chatReconnStart)).events
        ≠ [ChatEvent.connectionChanged false] := by
  exact ⟨rfl, by decide⟩

/-- C3 (amended): each `disconnect()` call — Chat or Tag Sync — emits
exactly one connection-changed(false) callback, so two consecutive calls
emit two; no error is raised, and the second call changes nothing beyond
appending that one callback event (the state fields are idempotent). -/
theorem c3_double_disconnect_amended (c : ChatState) (t : TagState) :
    (chatDisconnect c).events = c.events ++ [ChatEvent.connectionChanged false] ∧
    chatDisconnect (chatDisconnect c) =
      { chatDisconnect c with
          events := c.events ++
            [ChatEvent.connectionChanged false, ChatEvent.connectionChanged false] } ∧
    (tagDisconnect t).events = t.events ++ [TagEvent.connectionChanged false] ∧
    tagDisconnect (tagDisconnect t) =
      { tagDisconnect t with
          events := t.events ++
            [TagEvent.connectionChanged false, TagEvent.connectionChanged false] } := by
  refine ⟨rfl, ?_, rfl, ?_⟩ <;> simp [chatDisconnect, tagDisconnect]

/-! ### C4 — reconnection counter resets -/

/-- C4: counterexample. A manual `disconnect()` on a chat session whose
reconnection counter is 3 leaves the counter at 3, not 0. -/
theorem c4_disconnect_counter_cex :
    (chatDisconnect chatStateAttempts3).reconnection_attempts ≠ 0 := by
  decide

/-- C4 (amended): the reconnection counter is zero immediately after every
connect that actually establishes a connection (Chat: validated connect;
Tag: socket opened), but a manual `disconnect()` does not touch the
counter — it leaves it exactly as it was. -/
theorem c4_counter_reset_amended (v : ValidationResult) (c : ChatState)
    (t : TagState) (tenant : String) :
    ((chatConnect v c).1.is_connected = true →
        (chatConnect v c).1.reconnection_attempts = 0) ∧
    (chatDisconnect c).reconnection_attempts = c.reconnection_attempts ∧
    (t.websocket_open = false → t.should_maintain_connection = true →
        (tagConnect true tenant t).reconnection_attempts = 0) ∧
    (tagDisconnect t).reconnection_attempts = t.reconnection_attempts := by
  refine ⟨?_, rfl, ?_, rfl⟩
  · intro h
    unfold chatConnect at h ⊢
    by_cases h1 : c.openai_available <;> by_cases h2 : c.api_key_present <;>
      cases v <;> simp [h1, h2] at h ⊢
  · intro hw hm
    simp [tagConnect, hw, hm]

/-- C4: witness for the amended theorem at a concrete input. -/
theorem c4_counter_reset_amended_witness :
    (chatConnect ValidationResult.ok chatStateAttempts3).1.reconnection_attempts = 0 ∧
    (tagConnect true "acme" tagInitState).reconnection_attempts = 0 := by
  obtain ⟨h1, -, h3, -⟩ :=
    c4_counter_reset_amended ValidationResult.ok chatStateAttempts3 tagInitState "acme"
  exact ⟨h1 (by decide), h3 (by decide) (by decide)⟩

/-! ### C5 — connect failure behaviour -/

/-- C5: counterexample. With the OpenAI library unavailable, `connect()`
fails (connected stays false) yet returns normally instead of raising a
connection-failure exception. -/
theorem c5_connect_no_raise_cex :
    (chatConnect ValidationResult.ok chatNoLibState).2 = Except.ok () ∧
    (chatConnect ValidationResult.ok chatNoLibState).1.is_connected = false := by
  exact ⟨rfl, rfl⟩

/-- C5 (amended): every failed `connect()` leaves connected = false and
fires `on_connection_changed(False)`, without retrying synchronously; but
only a failed validation request raises to the caller — a missing library
or missing API key make `connect()` return normally. -/
theorem c5_connect_failure_amended (v : ValidationResult) (m : String) (s : ChatState) :
    (s.openai_available = false →
        (chatConnect v s).1.is_connected = false ∧
        (chatConnect v s).2 = Except.ok () ∧
        (chatConnect v s).1.events = s.events ++ [ChatEvent.connectionChanged false]) ∧
    (s.openai_available = true → s.api_key_present = false →
        (chatConnect v s).1.is_connected = false ∧
        (chatConnect v s).2 = Except.ok () ∧
        (chatConnect v s).1.events = s.events ++ [ChatEvent.connectionChanged false]) ∧
    (s.openai_available = true → s.api_key_present = true →
        (chatConnect (ValidationResult.fail m) s).1.is_connected = false ∧
        (chatConnect (ValidationResult.fail m) s).2 = Except.error m ∧
        (chatConnect (ValidationResult.fail m) s).1.events
            = s.events ++ [ChatEvent.connectionChanged false]) := by
  refine ⟨?_, ?_, ?_⟩
  · intro h1; simp [chatConnect, h1]
  · intro h1 h2; cases v <;> simp [chatConnect, h1, h2]
  · intro h1 h2; simp [chatConnect, h1, h2]

/-- C5: witness for the amended theorem at concrete inputs. -/
theorem c5_connect_failure_amended_witness :
    ((chatConnect ValidationResult.ok chatNoLibState).1.is_connected = false ∧
     (chatConnect ValidationResult.ok chatNoLibState).2 = Except.ok () ∧
     (chatConnect ValidationResult.ok chatNoLibState).1.events
         = chatNoLibState.events ++ [ChatEvent.connectionChanged false]) ∧
    ((chatConnect (ValidationResult.fail "boom") chatReconnStart).1.is_connected = false ∧
     (chatConnect (ValidationResult.fail "boom") chatReconnStart).2 = Except.error "boom" ∧
     (chatConnect (ValidationResult.fail "boom") chatReconnStart).1.events
         = chatReconnStart.events ++ [ChatEvent.connectionChanged false]) := by
  refine ⟨?_, ?_⟩
  · exact (c5_connect_failure_amended ValidationResult.ok "boom" chatNoLibState).1 (by decide)
  · exact (c5_connect_failure_amended ValidationResult.ok "boom" chatReconnStart).2.2
      (by decide) (by decide)

/-! ### C2 — initialize with failed fetch -/

/-- C2: counterexample. When the initial full fetch fails with HTTP 500,
`initialize` fires the error callback but still opens the live-update
WebSocket — `fetch_all_tags` swallows its errors, so the fail-fast path
the claim describes never triggers. -/
theorem c2_fetch_failure_still_opens_socket_cex :
    (tagSessionInit (FetchOutcome.httpError 500) true "acme" tagInitState).websocket_open
        = true ∧
    TagEvent.errorOccurred "HTTP 500" ∈
      (tagSessionInit (FetchOutcome.httpError 500) true "acme" tagInitState).events := by
  exact ⟨rfl, by decide⟩

/-- C2 (amended): when the initial fetch fails (HTTP error status or
exception), the error callback fires, but the persistent WebSocket is
nevertheless still opened (whenever the socket connect itself succeeds
and shutdown was not requested). -/
theorem c2_fetch_failure_amended (status : Nat) (m tenant : String) (s : TagState)
    (hw : s.websocket_open = false) (hm : s.should_maintain_connection = true)
    (ht : tenant ≠ "") :
    (TagEvent.errorOccurred ("HTTP " ++ toString status) ∈
        (tagSessionInit (FetchOutcome.httpError status) true tenant s).events ∧
     (tagSessionInit (FetchOutcome.httpError status) true tenant s).websocket_open = true) ∧
    (TagEvent.errorOccurred m ∈
        (tagSessionInit (FetchOutcome.exn m) true tenant s).events ∧
     (tagSessionInit (FetchOutcome.exn m) true tenant s).websocket_open = true) := by
  constructor <;>
    simp [tagSessionInit, fetchAllTags, tagConnect, hw, hm, ht]

/-- C2: witness for the amended theorem at a concrete input. -/
theorem c2_fetch_failure_amended_witness :
    (TagEvent.errorOccurred "HTTP 500" ∈
        (tagSessionInit (FetchOutcome.httpError 500) true "acme" tagInitState).events ∧
     (tagSessionInit (FetchOutcome.httpError 500) true "acme" tagInitState).websocket_open
         = true) ∧
    (TagEvent.errorOccurred "timeout" ∈
        (tagSessionInit (FetchOutcome.exn "timeout") true "acme" tagInitState).events ∧
     (tagSessionInit (FetchOutcome.exn "timeout") true "acme" tagInitState).websocket_open
         = true) := by
  exact c2_fetch_failure_amended 500 "timeout" "acme" tagInitState rfl rfl (by decide)

/-! ### C9 — malformed tag_update frames -/

/-- C9: counterexample. A `tag_update` frame with action `deleted` whose
payload is missing `name` and `color` is not dropped: it removes the tag
from the mirror and fires `on_tag_deleted`, contradicting the claim at
this input. -/
theorem c9_malformed_frame_cex :
    (handleTagUpdate tagStateOneTag deleteOnlyIdMsg).tags = [] ∧
    (handleTagUpdate tagStateOneTag deleteOnlyIdMsg).events = [TagEvent.tagDeleted "1"] ∧
    tagStateOneTag.tags ≠ [] := by
  refine ⟨by decide, by decide, by decide⟩

/-- C9 (amended): a `tag_update` frame with action `created` or `updated`
whose payload is missing `name` or `color` leaves the mirror unchanged and
fires no callback (processing is total — nothing is raised); a frame with
action `deleted` does not require those fields: it removes the id from the
mirror and fires `on_tag_deleted`. -/
theorem c9_malformed_frame_amended :
    (∀ (s : TagState) (act : String) (d : TagDataMsg),
        act = "created" ∨ act = "updated" →
        d.name = none ∨ d.color = none →
        (handleTagUpdate s { type := "tag_update", action := some act, data := some d }).tags
            = s.tags ∧
        (handleTagUpdate s { type := "tag_update", action := some act, data := some d }).events
            = s.events) ∧
    (∀ (s : TagState) (d : TagDataMsg),
        (handleTagUpdate s
            { type := "tag_update", action := some "deleted", data := some d }).tags
            = removeTag s.tags d.uniqueid ∧
        (handleTagUpdate s
            { type := "tag_update", action := some "deleted", data := some d }).events
            = s.events ++ [TagEvent.tagDeleted d.uniqueid]) := by
  constructor
  · intro s act d hact hd
    have htag : d.toTag = none := by
      rcases hd with h | h <;> simp [TagDataMsg.toTag, h]
    rcases hact with h | h <;> subst h <;> simp [handleTagUpdate, htag]
  · intro s d
    simp [handleTagUpdate]

/-- C9: witness for the amended theorem at concrete inputs. -/
theorem c9_malformed_frame_amended_witness :
    ((handleTagUpdate tagStateOneTag
        { type := "tag_update", action := some "updated",
          data := some { uniqueid := "1", color := some "blue" } }).tags
        = tagStateOneTag.tags ∧
     (handleTagUpdate tagStateOneTag
        { type := "tag_update", action := some "updated",
          data := some { uniqueid := "1", color := some "blue" } }).events
        = tagStateOneTag.events) ∧
    ((handleTagUpdate tagStateOneTag deleteOnlyIdMsg).tags
        = removeTag tagStateOneTag.tags "1" ∧
     (handleTagUpdate tagStateOneTag deleteOnlyIdMsg).events
        = tagStateOneTag.events ++ [TagEvent.tagDeleted "1"]) := by
  constructor
  · exact c9_malformed_frame_amended.1 tagStateOneTag "updated"
      { uniqueid := "1", color := some "blue" } (Or.inr rfl) (Or.inl rfl)
  · exact c9_malformed_frame_amended.2 tagStateOneTag { uniqueid := "1" }

/-! ### C8 — Tag Sync reconnection ceiling -/

theorem tagFailChain_succ (n : Nat) :
    tagFailChain (n + 1)
      = ((tagHandleConnectionError (tagFailChain n).1).1,
         (tagFailChain n).2
           + if (tagHandleConnectionError (tagFailChain n).1).2.isSome then 1 else 0) :=
  rfl

theorem tagHandleConnectionError_spec (s : TagState)
    (hm : s.should_maintain_connection = true) :
    (tagHandleConnectionError s).1.should_maintain_connection = true ∧
    (tagHandleConnectionError s).1.max_reconnection_attempts
        = s.max_reconnection_attempts ∧
    (tagHandleConnectionError s).1.reconnection_delay = s.reconnection_delay ∧
    (s.reconnection_attempts < s.max_reconnection_attempts →
        (tagHandleConnectionError s).1.reconnection_attempts
            = s.reconnection_attempts + 1 ∧
        (tagHandleConnectionError s).2
            = some (min (s.reconnection_delay * 2 ^ s.reconnection_attempts) 30)) ∧
    (¬ s.reconnection_attempts < s.max_reconnection_attempts →
        (tagHandleConnectionError s).1.reconnection_attempts = 0 ∧
        (tagHandleConnectionError s).2 = none) := by
  unfold tagHandleConnectionError
  by_cases h : s.reconnection_attempts < s.max_reconnection_attempts <;>
    simp [hm, h]

/-- Invariants plus the exact attempt-counter and attempt-count values of
the tag failure chain: the counter cycles `0,1,…,10,0,…` and every block
of 11 connection-error events contains exactly 10 actual reconnection
attempts. -/
theorem tagFailChain_spec (n : Nat) :
    (tagFailChain n).1.should_maintain_connection = true ∧
    (tagFailChain n).1.max_reconnection_attempts = 10 ∧
    (tagFailChain n).1.reconnection_attempts = n % 11 ∧
    (tagFailChain n).2 = n - n / 11 := by
  induction n with
  | zero => exact ⟨rfl, rfl, rfl, rfl⟩
  | succ n ih =>
      obtain ⟨hm, hmax, ha, hc⟩ := ih
      obtain ⟨h1, h2, -, hlt, hge⟩ :=
        tagHandleConnectionError_spec (tagFailChain n).1 hm
      rw [tagFailChain_succ]
      by_cases hcase :
          (tagFailChain n).1.reconnection_attempts
            < (tagFailChain n).1.max_reconnection_attempts
      · obtain ⟨ha', hd⟩ := hlt hcase
        rw [ha, hmax] at hcase
        refine ⟨h1, by rw [h2, hmax], ?_, ?_⟩
        · rw [ha', ha]; omega
        · rw [hd, hc]; simp; omega
      · obtain ⟨ha', hd⟩ := hge hcase
        rw [ha, hmax] at hcase
        refine ⟨h1, by rw [h2, hmax], ?_, ?_⟩
        · rw [ha']; omega
        · rw [hd, hc]; simp; omega

/-- C8: counterexample. Run twelve consecutive connection-error events
against the tag session with every reconnect failing: eleven reconnection
attempts are performed in total — the eleventh is automatic (triggered
after the ceiling reset the counter to zero), contradicting the claim that
no further automatic attempts occur after ten failures. -/
theorem c8_tag_ceiling_cex :
    (tagFailChain 12).2 = 11 ∧ ¬ (tagFailChain 12).2 ≤ 10 := by
  refine ⟨by decide, by decide⟩

/-- C8 (amended): within one uninterrupted chain of failed reconnection
attempts the tag session performs at most 10 attempts; but on reaching the
ceiling `_handle_connection_error` resets the attempt counter to zero
instead of giving up permanently, so the next automatically triggered
connection-error event (e.g. from the 10-second health monitor) starts a
fresh chain without any manual intervention: after `n` consecutive error
events the counter reads `n % 11` and exactly `n - n / 11` attempts have
been performed. -/
theorem c8_tag_ceiling_amended (n : Nat) :
    (tagFailChain n).1.reconnection_attempts = n % 11 ∧
    (tagFailChain n).2 = n - n / 11 :=
  ⟨(tagFailChain_spec n).2.2.1, (tagFailChain_spec n).2.2.2⟩

/-! ### C7 — Chat reconnection backoff -/

theorem chatFailChain_succ (n : Nat) :
    chatFailChain (n + 1)
      = ((chatFailStep (chatFailChain n).1).1,
         (chatFailChain n).2 ++ (chatFailStep (chatFailChain n).1).2.toList) :=
  rfl

theorem chatFailStep_spec (s : ChatState) (h1 : s.openai_available = true)
    (h2 : s.api_key_present = true) :
    (chatFailStep s).1.openai_available = true ∧
    (chatFailStep s).1.api_key_present = true ∧
    (chatFailStep s).1.max_reconnection_attempts = s.max_reconnection_attempts ∧
    (chatFailStep s).1.reconnection_delay = s.reconnection_delay ∧
    (chatFailStep s).1.is_connected = false ∧
    (s.reconnection_attempts < s.max_reconnection_attempts →
        (chatFailStep s).1.reconnection_attempts = s.reconnection_attempts + 1 ∧
        (chatFailStep s).2
            = some (min (s.reconnection_delay * 2 ^ (s.reconnection_attempts + 1)) 60)) ∧
    (¬ s.reconnection_attempts < s.max_reconnection_attempts →
        (chatFailStep s).1.reconnection_attempts = s.reconnection_attempts ∧
        (chatFailStep s).2 = none) := by
  unfold chatFailStep chatAttemptReconnection chatConnect
  by_cases h : s.max_reconnection_attempts ≤ s.reconnection_attempts <;>
    simp [h1, h2, h, Nat.not_lt, Nat.lt_iff_add_one_le]

/-- The exact delay sequence of the chat failure chain: after `n` failed
health-check rounds, `min n 10` reconnection attempts were performed, the
`i`-th (1-based, equal to the counter value) waiting
`min (base * 2 ^ i) 60` seconds. -/
theorem chatFailChain_spec (n : Nat) :
    (chatFailChain n).1.openai_available = true ∧
    (chatFailChain n).1.api_key_present = true ∧
    (chatFailChain n).1.max_reconnection_attempts = 10 ∧
    (chatFailChain n).1.reconnection_delay = 1 ∧
    (chatFailChain n).1.reconnection_attempts = min n 10 ∧
    (chatFailChain n).2
        = (List.range (min n 10)).map (fun i => min ((1 : ℚ) * 2 ^ (i + 1)) 60) ∧
    (1 ≤ n → (chatFailChain n).1.is_connected = false) := by
  induction n with
  | zero => exact ⟨rfl, rfl, rfl, rfl, rfl, rfl, by omega⟩
  | succ n ih =>
      obtain ⟨hav, hkey, hmax, hdel, ha, hds, -⟩ := ih
      obtain ⟨hav', hkey', hmax', hdel', hconn', hlt, hge⟩ :=
        chatFailStep_spec (chatFailChain n).1 hav hkey
      rw [chatFailChain_succ]
      refine ⟨hav', hkey', by rw [hmax', hmax], by rw [hdel', hdel], ?_, ?_, fun _ => hconn'⟩
      · by_cases hcase : n < 10
        · have := hlt (by rw [ha, hmax]; omega)
          rw [this.1, ha]; omega
        · have := hge (by rw [ha, hmax]; omega)
          rw [this.1, ha]; omega
      · by_cases hcase : n < 10
        · obtain ⟨-, hd⟩ := hlt (by rw [ha, hmax]; omega)
          rw [hd, hds, ha, hdel]
          have hmn : min n 10 = n := by omega
          have hmn' : min (n + 1) 10 = n + 1 := by omega
          rw [hmn, hmn', List.range_succ]
          simp
        · obtain ⟨-, hd⟩ := hge (by rw [ha, hmax]; omega)
          rw [hd, hds]
          have hmn : min n 10 = 10 := by omega
          have hmn' : min (n + 1) 10 = 10 := by omega
          rw [hmn, hmn']
          simp

theorem backoffDelays_pairwise (m : Nat) :
    List.Pairwise (· ≤ ·)
      ((List.range m).map (fun i => min ((1 : ℚ) * 2 ^ (i + 1)) 60)) := by
  refine List.pairwise_map.mpr ((List.pairwise_lt_range m).imp ?_)
  intro i j hij
  refine min_le_min ?_ le_rfl
  have : (2 : ℚ) ^ (i + 1) ≤ 2 ^ (j + 1) :=
    pow_le_pow_right₀ (by norm_num) (by omega)
  linarith

/-- C7 (confirmed): across any run of consecutive failed chat reconnection
attempts, the backoff delay of the `i`-th attempt is
`base * 2 ^ i` capped at 60 seconds (`i` being the attempt counter's
value, `base` the configured 1-second delay); the delays are
non-decreasing; at most 10 attempts are performed, after which the session
sets connected = false and performs no further attempts; and a manual
`connect()` on the given-up session resets the counter to zero. -/
theorem c7_chat_backoff (n : Nat) :
    (chatFailChain n).2
        = (List.range (min n 10)).map
            (fun i => min (chatReconnStart.reconnection_delay * 2 ^ (i + 1)) 60) ∧
    List.Pairwise (· ≤ ·) (chatFailChain n).2 ∧
    (chatFailChain n).2.length = min n 10 ∧
    (11 ≤ n → (chatFailChain n).1.is_connected = false ∧
        (chatFailChain n).1.reconnection_attempts = 10) ∧
    (chatConnect ValidationResult.ok (chatFailChain n).1).1.reconnection_attempts = 0 := by
  obtain ⟨hav, hkey, hmax, hdel, ha, hds, hconn⟩ := chatFailChain_spec n
  refine ⟨hds, ?_, ?_, ?_, ?_⟩
  · rw [hds]; exact backoffDelays_pairwise _
  · rw [hds]; simp
  · intro hn
    exact ⟨hconn (by omega), by rw [ha]; omega⟩
  · unfold chatConnect
    simp [hav, hkey]

/-- C7: witness at twelve failure rounds. -/
theorem c7_chat_backoff_witness :
    (chatFailChain 12).2
        = (List.range (min 12 10)).map
            (fun i => min (chatReconnStart.reconnection_delay * 2 ^ (i + 1)) 60) ∧
    List.Pairwise (· ≤ ·) (chatFailChain 12).2 ∧
    (chatFailChain 12).2.length = min 12 10 ∧
    ((chatFailChain 12).1.is_connected = false ∧
        (chatFailChain 12).1.reconnection_attempts = 10) ∧
    (chatConnect ValidationResult.ok (chatFailChain 12).1).1.reconnection_attempts = 0 := by
  obtain ⟨h1, h2, h3, h4, h5⟩ := c7_chat_backoff 12
  exact ⟨h1, h2, h3, h4 (by decide), h5⟩

/-! ### Receive-loop lemmas (C1, C10) -/

theorem streamTrace_filter (pre : String) (tokens : List String) :
    (streamTrace pre tokens).filter isStreamCb = tokens.map ChatEvent.chunkReceived := by
  induction tokens generalizing pre with
  | nil => rfl
  | cons t ts ih => simp [streamTrace, isStreamCb, ih]

theorem streamTrace_filter_complete (pre : String) (tokens : List String) :
    (streamTrace pre tokens).filter isCompleteCb = [] := by
  induction tokens generalizing pre with
  | nil => rfl
  | cons t ts ih => simp [streamTrace, isCompleteCb, ih]

/-- An uncancelled run over `N` content tokens and a finish chunk: the
loop appends every token to the buffers, emits the per-token callbacks in
order, then performs the completion block and sets the completion event. -/
theorem runStream_noStop (tokens : List String) (s : ChatState) (reason : String) :
    runStream s (tokensToChunks tokens reason) none =
      { s with is_receiving := false
               message_stream := s.message_stream ++ concatTokens tokens
               current_response_content := s.current_response_content ++ concatTokens tokens
               message_history := s.message_history ++
                 [{ role := "assistant", content := s.message_stream ++ concatTokens tokens }]
               response_event_set := true
               events := s.events ++ (streamTrace s.message_stream tokens ++
                 [ChatEvent.thinkingChanged false,
                  ChatEvent.responseComplete (s.message_stream ++ concatTokens tokens),
                  ChatEvent.messageReceived (s.message_stream ++ concatTokens tokens)]) } := by
  induction tokens generalizing s with
  | nil =>
      simp [runStream, tokensToChunks, stopFlag, concatTokens, streamTrace,
        String.append_empty]
  | cons t ts ih =>
      simp only [tokensToChunks, List.map_cons, List.cons_append]
      rw [runStream]
      simp only [stopFlag, Bool.false_eq_true, if_false, tickStop]
      rw [show (tokensToChunks ts reason)
            = ts.map (fun t => ({ content := some t, finish := none } : Chunk)) ++
              [{ content := none, finish := some reason }] from rfl] at ih
      rw [ih]
      simp [streamTrace, concatTokens, String.append_assoc, List.append_assoc]

/-- A run cancelled before the finish chunk (`stop_generation` sets the
flag before iteration `k ≤ N`): the loop breaks out after the first `k`
tokens, without the completion block and without setting the completion
event. -/
theorem runStream_stop (tokens : List String) (k : Nat) (s : ChatState) (reason : String)
    (hk : k ≤ tokens.length) :
    runStream s (tokensToChunks tokens reason) (some k) =
      { s with message_stream := s.message_stream ++ concatTokens (List.take k tokens)
               current_response_content :=
                 s.current_response_content ++ concatTokens (List.take k tokens)
               events := s.events ++ streamTrace s.message_stream (List.take k tokens) } := by
  induction tokens generalizing s k with
  | nil =>
      have hk0 : k = 0 := Nat.le_zero.mp hk
      subst hk0
      simp [runStream, tokensToChunks, stopFlag, concatTokens, streamTrace,
        String.append_empty]
  | cons t ts ih =>
      cases k with
      | zero =>
          simp [runStream, tokensToChunks, stopFlag, concatTokens, streamTrace,
            String.append_empty]
      | succ j =>
          have hj : j ≤ ts.length := by simpa using hk
          simp only [tokensToChunks, List.map_cons, List.cons_append]
          rw [runStream]
          simp only [stopFlag, Bool.false_eq_true, if_false, tickStop]
          rw [show (tokensToChunks ts reason)
                = ts.map (fun t => ({ content := some t, finish := none } : Chunk)) ++
                  [{ content := none, finish := some reason }] from rfl] at ih
          rw [ih j _ hj]
          simp [streamTrace, concatTokens, String.append_assoc, List.append_assoc]

/-- `send_message_streaming` on a connected session, uncancelled: the new
events are `on_thinking_changed(True)`, the per-token trace, then the
completion block; the call returns the full concatenation. -/
theorem sendMessageStreaming_connected_noStop
    (v : ValidationResult) (s : ChatState) (text : String)
    (ocr sel url : Option String) (sm : Bool) (tokens : List String) (reason : String)
    (h : s.is_connected = true) :
    (sendMessageStreaming v s text ocr sel url sm
        (tokensToChunks tokens reason) none).1.events
      = s.events ++ (ChatEvent.thinkingChanged true :: (streamTrace "" tokens ++
          [ChatEvent.thinkingChanged false,
           ChatEvent.responseComplete (concatTokens tokens),
           ChatEvent.messageReceived (concatTokens tokens)])) ∧
    (sendMessageStreaming v s text ocr sel url sm
        (tokensToChunks tokens reason) none).2
      = Except.ok (some (concatTokens tokens)) := by
  unfold sendMessageStreaming
  simp only [h, if_true]
  rw [runStream_noStop]
  constructor <;>
    simp [String.empty_append, List.append_assoc, apply_ite]

/-- `send_message_streaming` on a connected session, cancelled before the
finish sentinel: the completion event is never set, the suspended await
never finishes (return `none`), and the partial text sits only in the
stream buffer. -/
theorem sendMessageStreaming_connected_stop
    (v : ValidationResult) (s : ChatState) (text : String)
    (ocr sel url : Option String) (sm : Bool) (tokens : List String) (reason : String)
    (k : Nat) (h : s.is_connected = true) (hk : k ≤ tokens.length) :
    (sendMessageStreaming v s text ocr sel url sm
        (tokensToChunks tokens reason) (some k)).1.events
      = s.events ++ (ChatEvent.thinkingChanged true ::
          streamTrace "" (List.take k tokens)) ∧
    (sendMessageStreaming v s text ocr sel url sm
        (tokensToChunks tokens reason) (some k)).1.response_event_set = false ∧
    (sendMessageStreaming v s text ocr sel url sm
        (tokensToChunks tokens reason) (some k)).1.message_stream
      = concatTokens (List.take k tokens) ∧
    (sendMessageStreaming v s text ocr sel url sm
        (tokensToChunks tokens reason) (some k)).2 = Except.ok none := by
  unfold sendMessageStreaming
  simp only [h, if_true]
  rw [runStream_stop _ _ _ _ hk]
  refine ⟨?_, ?_, ?_, ?_⟩ <;>
    simp [String.empty_append, List.append_assoc, apply_ite]

/-! ### C1 — streaming callback ordering -/

/-- C1 (confirmed): on a connected session, for a provider stream of `N`
non-null content tokens followed by a chunk with non-null finish_reason,
the subsequence of `on_chunk_received` / `on_response_complete` firings is
exactly the `N` tokens in emission order followed by one completion
callback carrying their concatenation — no reordering, no batching. -/
theorem c1_stream_callback_order
    (v : ValidationResult) (s : ChatState) (text : String)
    (ocr sel url : Option String) (sm : Bool)
    (tokens : List String) (reason : String) (h : s.is_connected = true) :
    (((sendMessageStreaming v s text ocr sel url sm
        (tokensToChunks tokens reason) none).1.events).drop s.events.length).filter
          isStreamCb
      = tokens.map ChatEvent.chunkReceived ++
          [ChatEvent.responseComplete (concatTokens tokens)] := by
  obtain ⟨he, -⟩ :=
    sendMessageStreaming_connected_noStop v s text ocr sel url sm tokens reason h
  rw [he, List.drop_left]
  simp [isStreamCb, streamTrace_filter]

/-- C1: witness at Scenario A's stream (`["Hi", " there"]` then finish). -/
theorem c1_stream_callback_order_witness :
    (((sendMessageStreaming ValidationResult.ok chatReconnStart "Hello"
        none none none false
        (tokensToChunks ["Hi", " there"] "stop") none).1.events).drop
          chatReconnStart.events.length).filter isStreamCb
      = [ChatEvent.chunkReceived "Hi", ChatEvent.chunkReceived " there",
         ChatEvent.responseComplete "Hi there"] := by
  rw [c1_stream_callback_order ValidationResult.ok chatReconnStart "Hello"
      none none none false ["Hi", " there"] "stop" rfl]
  rfl

/-! ### C10 — cancellation before the finish sentinel -/

/-- C10 (confirmed): if `stop_generation` sets the cancellation flag
before the finish sentinel is processed, the receive loop exits without
setting the request's completion event, so the suspended
`send_message_streaming` call never completes (`none`), fires no
`on_response_complete`, and the partial text is retained only in the
stream buffer. -/
theorem c10_cancellation_no_completion
    (v : ValidationResult) (s : ChatState) (text : String)
    (ocr sel url : Option String) (sm : Bool)
    (tokens : List String) (reason : String) (k : Nat)
    (h : s.is_connected = true) (hk : k ≤ tokens.length) :
    (sendMessageStreaming v s text ocr sel url sm
        (tokensToChunks tokens reason) (some k)).1.response_event_set = false ∧
    (sendMessageStreaming v s text ocr sel url sm
        (tokensToChunks tokens reason) (some k)).2 = Except.ok none ∧
    (sendMessageStreaming v s text ocr sel url sm
        (tokensToChunks tokens reason) (some k)).1.message_stream
      = concatTokens (List.take k tokens) ∧
    (((sendMessageStreaming v s text ocr sel url sm
        (tokensToChunks tokens reason) (some k)).1.events).drop s.events.length).filter
          isCompleteCb = [] := by
  obtain ⟨he, hset, hms, hret⟩ :=
    sendMessageStreaming_connected_stop v s text ocr sel url sm tokens reason k h hk
  refine ⟨hset, hret, hms, ?_⟩
  rw [he, List.drop_left]
  simp [isCompleteCb, streamTrace_filter_complete]

/-- C10: witness — stream of three tokens cancelled after two. -/
theorem c10_cancellation_no_completion_witness :
    (sendMessageStreaming ValidationResult.ok chatReconnStart "Hello"
        none none none false
        (tokensToChunks ["a", "b", "c"] "stop") (some 2)).1.response_event_set = false ∧
    (sendMessageStreaming ValidationResult.ok chatReconnStart "Hello"
        none none none false
        (tokensToChunks ["a", "b", "c"] "stop") (some 2)).2 = Except.ok none ∧
    (sendMessageStreaming ValidationResult.ok chatReconnStart "Hello"
        none none none false
        (tokensToChunks ["a", "b", "c"] "stop") (some 2)).1.message_stream
      = concatTokens (List.take 2 ["a", "b", "c"]) ∧
    (((sendMessageStreaming ValidationResult.ok chatReconnStart "Hello"
        none none none false
        (tokensToChunks ["a", "b", "c"] "stop") (some 2)).1.events).drop
          chatReconnStart.events.length).filter isCompleteCb = [] :=
  c10_cancellation_no_completion ValidationResult.ok chatReconnStart "Hello"
    none none none false ["a", "b", "c"] "stop" 2 rfl (by decide)

/-! ### C6 — mirror consistency -/

theorem mem_addOrUpdateTag {l : List Tag} {t x : Tag}
    (hx : x ∈ addOrUpdateTag l t) : x = t ∨ x ∈ l := by
  induction l with
  | nil => simpa [addOrUpdateTag] using hx
  | cons a rest ih =>
      rw [addOrUpdateTag] at hx
      by_cases h : a.id = t.id
      · rw [if_pos h] at hx
        rcases List.mem_cons.mp hx with h' | h'
        · exact Or.inl h'
        · exact Or.inr (List.mem_cons_of_mem a h')
      · rw [if_neg h] at hx
        rcases List.mem_cons.mp hx with h' | h'
        · exact Or.inr (h' ▸ List.mem_cons_self a rest)
        · rcases ih h' with h'' | h''
          · exact Or.inl h''
          · exact Or.inr (List.mem_cons_of_mem a h'')

theorem idsNodup_addOrUpdateTag (l : List Tag) (t : Tag) (h : idsNodup l) :
    idsNodup (addOrUpdateTag l t) := by
  induction l with
  | nil => simp [addOrUpdateTag, idsNodup]
  | cons a rest ih =>
      rw [idsNodup, List.map_cons, List.nodup_cons] at h
      obtain ⟨ha, hrest⟩ := h
      rw [addOrUpdateTag]
      by_cases hat : a.id = t.id
      · rw [if_pos hat]
        rw [idsNodup, List.map_cons, List.nodup_cons]
        exact ⟨hat ▸ ha, hrest⟩
      · rw [if_neg hat]
        rw [idsNodup, List.map_cons, List.nodup_cons]
        refine ⟨?_, ih hrest⟩
        intro hmem
        obtain ⟨y, hy, hyid⟩ := List.mem_map.mp hmem
        rcases mem_addOrUpdateTag hy with rfl | hy'
        · exact hat hyid.symm
        · exact ha (List.mem_map.mpr ⟨y, hy', hyid⟩)

theorem removeTag_sublist (l : List Tag) (u : String) :
    List.Sublist (removeTag l u) l := by
  induction l with
  | nil => exact List.Sublist.refl []
  | cons a rest ih =>
      rw [removeTag]
      by_cases h : a.id = u
      · rw [if_pos h]; exact List.sublist_cons_self a rest
      · rw [if_neg h]; exact List.Sublist.cons₂ a ih

theorem idsNodup_removeTag (l : List Tag) (u : String) (h : idsNodup l) :
    idsNodup (removeTag l u) :=
  List.Nodup.sublist ((removeTag_sublist l u).map Tag.id) h

theorem getTag_eq_none (l : List Tag) (i : String) (h : i ∉ l.map Tag.id) :
    getTag l i = none := by
  induction l with
  | nil => rfl
  | cons a rest ih =>
      rw [List.map_cons, List.mem_cons, not_or] at h
      rw [getTag, if_neg (fun hc => h.1 hc.symm)]
      exact ih h.2

theorem getTag_addOrUpdateTag (l : List Tag) (t : Tag) (i : String) :
    getTag (addOrUpdateTag l t) i = if t.id = i then some t else getTag l i := by
  induction l with
  | nil => simp [addOrUpdateTag, getTag]
  | cons a rest ih =>
      rw [addOrUpdateTag]
      by_cases hat : a.id = t.id
      · rw [if_pos hat, getTag, getTag]
        by_cases hti : t.id = i
        · rw [if_pos hti, if_pos hti]
        · rw [if_neg hti, if_neg hti, if_neg (fun hai => hti (hat.symm.trans hai))]
      · rw [if_neg hat, getTag, getTag]
        by_cases hai : a.id = i
        · rw [if_pos hai, if_pos hai, if_neg (fun hti => hat (hai.trans hti.symm))]
        · rw [if_neg hai, if_neg hai, ih]

theorem getTag_removeTag (l : List Tag) (u i : String) (h : idsNodup l) :
    getTag (removeTag l u) i = if u = i then none else getTag l i := by
  induction l with
  | nil => simp [removeTag, getTag]
  | cons a rest ih =>
      rw [idsNodup, List.map_cons, List.nodup_cons] at h
      obtain ⟨ha, hrest⟩ := h
      rw [removeTag]
      by_cases hau : a.id = u
      · rw [if_pos hau]
        by_cases hui : u = i
        · rw [if_pos hui]
          refine getTag_eq_none rest i ?_
          rw [← hui, ← hau]; exact ha
        · rw [if_neg hui, getTag, if_neg (fun hai => hui (hau.symm.trans hai))]
      · rw [if_neg hau, getTag]
        by_cases hai : a.id = i
        · rw [if_pos hai, getTag, if_pos hai,
            if_neg (fun hui => hau (hai.trans hui.symm))]
        · rw [if_neg hai, getTag, if_neg hai, ih hrest]

theorem filter_eq_getTag_toList (l : List Tag) (i : String) (h : idsNodup l) :
    l.filter (fun t => t.id == i) = (getTag l i).toList := by
  induction l with
  | nil => rfl
  | cons a rest ih =>
      rw [idsNodup, List.map_cons, List.nodup_cons] at h
      obtain ⟨ha, hrest⟩ := h
      rw [List.filter_cons, getTag]
      by_cases hai : a.id = i
      · rw [if_pos hai]
        have hnone : getTag rest i = none := getTag_eq_none rest i (hai ▸ ha)
        rw [ih hrest, hnone]
        simp [hai]
      · rw [if_neg hai, ih hrest]
        simp [hai]

theorem handleTagUpdate_toMsg_tags (s : TagState) (f : TagFrame) (hw : f.wf = true) :
    (handleTagUpdate s f.toMsg).tags = applyOp s.tags f := by
  cases f with
  | created t =>
      simp only [TagFrame.wf, Bool.and_eq_true, Bool.not_eq_eq_eq_not, Bool.not_true,
        beq_eq_false_iff_ne, ne_eq] at hw
      simp [handleTagUpdate, TagFrame.toMsg, TagDataMsg.toTag, applyOp, hw.1, hw.2]
  | updated t =>
      simp only [TagFrame.wf, Bool.and_eq_true, Bool.not_eq_eq_eq_not, Bool.not_true,
        beq_eq_false_iff_ne, ne_eq] at hw
      simp [handleTagUpdate, TagFrame.toMsg, TagDataMsg.toTag, applyOp, hw.1, hw.2]
  | deleted j =>
      simp [handleTagUpdate, TagFrame.toMsg, applyOp]

theorem idsNodup_applyOp (l : List Tag) (f : TagFrame) (h : idsNodup l) :
    idsNodup (applyOp l f) := by
  cases f with
  | created t => exact idsNodup_addOrUpdateTag l t h
  | updated t => exact idsNodup_addOrUpdateTag l t h
  | deleted j => exact idsNodup_removeTag l j h

theorem getTag_applyOp (l : List Tag) (f : TagFrame) (i : String) (h : idsNodup l) :
    getTag (applyOp l f) i = refStep i (getTag l i) f := by
  cases f with
  | created t => rw [applyOp, refStep, getTag_addOrUpdateTag]
  | updated t => rw [applyOp, refStep, getTag_addOrUpdateTag]
  | deleted j => rw [applyOp, refStep, getTag_removeTag l j i h]

/-- C6 (confirmed): starting from a mirror with pairwise-distinct ids,
after any finite sequence of well-formed created/updated/deleted frames
the mirror's entries for each id `i` are exactly what the last-writer-wins
reference model prescribes — one entry carrying the most recently applied
name/color for a live id, none for a deleted id — and the mirror never
holds two entries with the same id. -/
theorem c6_mirror_consistency (s : TagState) (fs : List TagFrame) (i : String)
    (hnd : idsNodup s.tags) (hwf : ∀ f ∈ fs, f.wf = true) :
    (applyFrames s fs).tags.filter (fun t => t.id == i)
        = (refLookup (getTag s.tags i) fs i).toList ∧
    idsNodup (applyFrames s fs).tags := by
  induction fs generalizing s with
  | nil => exact ⟨filter_eq_getTag_toList _ _ hnd, hnd⟩
  | cons f fs ih =>
      have hw1 : f.wf = true := hwf f (List.mem_cons_self f fs)
      have hws : ∀ g ∈ fs, g.wf = true := fun g hg => hwf g (List.mem_cons_of_mem f hg)
      have hstep : (handleTagUpdate s f.toMsg).tags = applyOp s.tags f :=
        handleTagUpdate_toMsg_tags s f hw1
      have hnd' : idsNodup (handleTagUpdate s f.toMsg).tags := by
        rw [hstep]; exact idsNodup_applyOp _ _ hnd
      obtain ⟨h1, h2⟩ := ih (handleTagUpdate s f.toMsg) hnd' hws
      rw [show applyFrames s (f :: fs) = applyFrames (handleTagUpdate s f.toMsg) fs
        from rfl]
      refine ⟨?_, h2⟩
      rw [h1,
        show refLookup (getTag s.tags i) (f :: fs) i
          = refLookup (refStep i (getTag s.tags i) f) fs i from rfl]
      congr 2
      rw [hstep]
      exact getTag_applyOp _ _ _ hnd

/-- C6: witness at a concrete interleaving (update then delete of one id,
creation of another). -/
theorem c6_mirror_consistency_witness :
    (applyFrames tagInitState sampleFrames).tags.filter (fun t => t.id == "1")
        = (refLookup (getTag tagInitState.tags "1") sampleFrames "1").toList ∧
    idsNodup (applyFrames tagInitState sampleFrames).tags :=
  c6_mirror_consistency tagInitState sampleFrames "1"
    (by unfold idsNodup tagInitState; decide) (by decide)

end FreeCluely
